import Mathlib

set_option maxRecDepth 16384

/-! Shallow embedding of src/powerdns.c, the collectd PowerDNS statistics
plugin.  The module polls PowerDNS servers over UNIX-domain sockets, decodes
the textual replies into (name, value) pairs and forwards resolved pairs to
the collectd dispatch framework.

External collaborators (the plugin_get_ds schema lookup, the libc numeric
conversions strtod and strtoll, and the indeterminate memory that sits one
element past the static lookup table) are modelled as explicit fields of an
environment record.  System calls are modelled by their outcomes, which the
environment supplies, and each transport function additionally returns the
trace of the calls it performed, so that properties such as how often
unlink is attempted can be stated. -/

/-- One row of the static statname_lookup_t table (powerdns.c lines 75-81):
a raw statistic name together with its collectd type and optional type
instance.  The C fields are char pointers; a NULL pointer is modelled as
none. -/
structure statname_lookup_t where
  name : String
  type : Option String
  type_instance : Option String
deriving DecidableEq

/-- The static lookup_table of powerdns.c lines 122-184, transcribed row by
row in source order (the order encodes lookup precedence). -/
def lookup_table : List statname_lookup_t :=
  [ ⟨"recursing-questions",    some "dns_question", some "recurse"⟩,
    ⟨"tcp-queries",            some "dns_question", some "tcp"⟩,
    ⟨"udp-queries",            some "dns_question", some "udp"⟩,
    ⟨"recursing-answers",      some "dns_answer",   some "recurse"⟩,
    ⟨"tcp-answers",            some "dns_answer",   some "tcp"⟩,
    ⟨"udp-answers",            some "dns_answer",   some "udp"⟩,
    ⟨"packetcache-hit",        some "cache_result", some "packet-hit"⟩,
    ⟨"packetcache-miss",       some "cache_result", some "packet-miss"⟩,
    ⟨"packetcache-size",       some "cache_size",   some "packet"⟩,
    ⟨"query-cache-hit",        some "cache_result", some "query-hit"⟩,
    ⟨"query-cache-miss",       some "cache_result", some "query-miss"⟩,
    ⟨"latency",                some "latency",      none⟩,
    ⟨"corrupt-packets",        some "io_packets",   some "corrupt"⟩,
    ⟨"deferred-cache-inserts", some "counter",      some "cache-deferred_insert"⟩,
    ⟨"deferred-cache-lookup",  some "counter",      some "cache-deferred_lookup"⟩,
    ⟨"qsize-a",                some "cache_size",   some "answers"⟩,
    ⟨"qsize-q",                some "cache_size",   some "questions"⟩,
    ⟨"servfail-packets",       some "io_packets",   some "servfail"⟩,
    ⟨"timedout-packets",       some "io_packets",   some "timeout"⟩,
    ⟨"udp4-answers",           some "dns_answer",   some "udp4"⟩,
    ⟨"udp4-queries",           some "dns_question", some "queries-udp4"⟩,
    ⟨"udp6-answers",           some "dns_answer",   some "udp6"⟩,
    ⟨"udp6-queries",           some "dns_question", some "queries-udp6"⟩,
    ⟨"noerror-answers",        some "dns_rcode",    some "NOERROR"⟩,
    ⟨"nxdomain-answers",       some "dns_rcode",    some "NXDOMAIN"⟩,
    ⟨"servfail-answers",       some "dns_rcode",    some "SERVFAIL"⟩,
    ⟨"sys-msec",               some "cpu",          some "system"⟩,
    ⟨"user-msec",              some "cpu",          some "user"⟩,
    ⟨"qa-latency",             some "latency",      none⟩,
    ⟨"cache-entries",          some "cache_size",   none⟩,
    ⟨"cache-hits",             some "cache_result", some "hit"⟩,
    ⟨"cache-misses",           some "cache_result", some "miss"⟩,
    ⟨"questions",              some "dns_qtype",    some "total"⟩ ]

/-- lookup_table_length = STATIC_ARRAY_SIZE (lookup_table), powerdns.c
line 185. -/
def lookup_table_length : Nat := lookup_table.length

/-- The two numeric representations distinguished by submit (powerdns.c
line 251): DS_TYPE_GAUGE parses with strtod, anything else parses with
strtoll as a counter. -/
inductive DSType where
  | gauge
  | counter
deriving DecidableEq

/-- The part of a collectd data_set_t that submit inspects: the number of
data sources and the type of the first one. -/
structure data_set_t where
  ds_num : Nat
  ds0_type : DSType
deriving DecidableEq

/-- A call made by submit to an external collaborator: the schema lookup
plugin_get_ds (line 234) or the metric dispatch plugin_dispatch_values
(line 286), the latter recorded with the type, type instance and plugin
instance placed into the value list. -/
inductive Call where
  | getDS (type : String)
  | dispatchValues (type : String) (type_instance : Option String)
      (plugin_instance : String)
deriving DecidableEq

/-- Which return path submit took. -/
inductive SubmitOutcome where
  | droppedNullType
  | droppedNotInTable
  | droppedNoDS
  | droppedArity
  | droppedParseError
  | ok
deriving DecidableEq

/-- Result of one submit invocation: the index at which the code evaluated
lookup_table[i].type on line 221 (before any bounds check), the collaborator
calls performed, whether plugin_dispatch_values was reached, and the return
path taken. -/
structure SubmitOut where
  accessIdx : Nat
  calls : List Call
  dispatched : Bool
  outcome : SubmitOutcome
deriving DecidableEq

/-- Environment of external behaviour that submit depends on: the value of
the char pointer found one element past the end of lookup_table (the C code
reads it when the scan fails; it is indeterminate memory, so it is a
parameter), the schema lookup collaborator, and for each numeric conversion
how many characters strtod and strtoll would consume from a given string
(endptr == value in the C code corresponds to zero characters consumed). -/
structure Env where
  oob_type : Option String
  plugin_get_ds : String → Option data_set_t
  strtod_consumed : String → Nat
  strtoll_consumed : String → Nat

/-- The linear scan of powerdns.c lines 217-219: index of the first table
row whose name equals pdns_type, or lookup_table_length when none matches
(the for loop leaves i at the length in that case). -/
def scan_index (pdns_type : String) : Nat :=
  lookup_table.findIdx (fun e => e.name == pdns_type)

/-- The read of lookup_table[i].type performed on line 221.  For an index
inside the table it is the row's type field; for the one-past-the-end index
produced by a failed scan it is whatever lies in memory after the table,
supplied by the environment. -/
def type_at (env : Env) (i : Nat) : Option String :=
  match lookup_table[i]? with
  | some e => e.type
  | none => env.oob_type

/-- The read of lookup_table[i].type_instance on line 232 (only reached for
in-bounds indices). -/
def type_instance_at (i : Nat) : Option String :=
  match lookup_table[i]? with
  | some e => e.type_instance
  | none => none

/-- submit (powerdns.c lines 205-287).  Scan the table for pdns_type; test
lookup_table[i].type against NULL (line 221, performed before the bounds
check on line 224); on a hit look up the data set via plugin_get_ds, demand
exactly one data source, convert the value with strtod (gauge) or strtoll
(otherwise), drop the pair with an error if the conversion consumes no
characters, and otherwise dispatch one value list. -/
def submit (env : Env) (plugin_instance pdns_type value : String) : SubmitOut :=
  match type_at env (scan_index pdns_type) with
  | none => ⟨scan_index pdns_type, [], false, SubmitOutcome.droppedNullType⟩
  | some ty =>
    if lookup_table_length ≤ scan_index pdns_type then
      ⟨scan_index pdns_type, [], false, SubmitOutcome.droppedNotInTable⟩
    else
      match env.plugin_get_ds ty with
      | none => ⟨scan_index pdns_type, [Call.getDS ty], false, SubmitOutcome.droppedNoDS⟩
      | some ds =>
        if ds.ds_num ≠ 1 then
          ⟨scan_index pdns_type, [Call.getDS ty], false, SubmitOutcome.droppedArity⟩
        else if (match ds.ds0_type with
            | DSType.gauge => env.strtod_consumed value
            | DSType.counter => env.strtoll_consumed value) = 0 then
          ⟨scan_index pdns_type, [Call.getDS ty], false, SubmitOutcome.droppedParseError⟩
        else
          ⟨scan_index pdns_type,
            [Call.getDS ty,
             Call.dispatchValues ty (type_instance_at (scan_index pdns_type)) plugin_instance],
            true, SubmitOutcome.ok⟩

/-- Single pass behind tokenize, carrying the reversed current token:
a delimiter flushes the current token if it is non-empty, every other
character extends it, and the end of input flushes the last token. -/
def tokenize_go (delims : List Char) : List Char → List Char → List (List Char)
  | [], cur => if cur = [] then [] else [cur.reverse]
  | c :: cs, cur =>
    if delims.contains c then
      if cur = [] then tokenize_go delims cs []
      else cur.reverse :: tokenize_go delims cs []
    else tokenize_go delims cs (c :: cur)

/-- strtok_r over a list of delimiter characters: successive non-empty
tokens, with runs of delimiters collapsed and leading delimiters skipped,
exactly as the C library function behaves on repeated calls. -/
def tokenize (delims : List Char) (s : List Char) : List (List Char) :=
  tokenize_go delims s []

/-- The strchr-based split of one comma token in powerdns_read_server
(lines 507-512): find the first equals sign, the key is everything before
it and the value everything after it; none when the token has no equals
sign. -/
def splitEq (tok : List Char) : Option (List Char × List Char) :=
  if tok.contains '=' then
    some (tok.takeWhile (fun c => c != '='), (tok.dropWhile (fun c => c != '=')).tail)
  else none

/-- The per-token loop of powerdns_read_server (lines 503-518), with the
submissions abstracted away: a token without an equals sign stops the loop,
a token with an empty value is skipped, every other token contributes its
(key, value) pair in encounter order. -/
def server_decode : List (List Char) → List (List Char × List Char)
  | [] => []
  | tok :: rest =>
    match splitEq tok with
    | none => []
    | some (key, value) =>
      if value = [] then server_decode rest
      else (key, value) :: server_decode rest

/-- powerdns_read_server (lines 484-523) on a successfully fetched reply
buffer: the function tokenizes on commas, decodes, and returns 0. -/
def powerdns_read_server_model (buffer : List Char) :
    Int × List (List Char × List Char) :=
  (0, server_decode (tokenize [','] buffer))

/-- The same loop of powerdns_read_server, but recording the submit call
performed for each surviving pair, to model one whole decode cycle against
an environment. -/
def server_cycle (env : Env) (inst : String) : List (List Char) → List SubmitOut
  | [] => []
  | tok :: rest =>
    match splitEq tok with
    | none => []
    | some (key, value) =>
      if value = [] then server_cycle env inst rest
      else submit env inst (String.mk key) (String.mk value) :: server_cycle env inst rest

/-- The pairing loop of powerdns_read_recursor (lines 557-567): fetch the
next value token; if there is none the loop ends; fetch the next key token;
if there is none the loop breaks; otherwise emit the (key, value) pair and
continue. -/
def recursor_loop : List (List Char) → List (List Char) → List (List Char × List Char)
  | [], _ => []
  | _ :: _, [] => []
  | v :: vs, k :: ks => (k, v) :: recursor_loop vs ks

/-- powerdns_read_recursor (lines 525-573) on a successfully fetched reply
buffer: the keys come from the command string split on space and tab with
the leading verb token discarded (the first strtok_r call on line 555), the
values come from the buffer split on space, tab, newline and carriage
return, and the function returns 0. -/
def powerdns_read_recursor_model (command buffer : List Char) :
    Int × List (List Char × List Char) :=
  let keys_list := tokenize [' ', '\t'] command
  (0, recursor_loop (tokenize [' ', '\t', '\n', '\r'] buffer) (keys_list.drop 1))

/-- One receive event observed by the stream strategy loop: either recv
returned a chunk of bytes (together with whether the realloc that grows the
buffer succeeds), or recv failed.  The end of the event list stands for recv
returning 0, the clean end-of-stream. -/
inductive RecvEvent where
  | chunk (data : List Nat) (realloc_ok : Bool)
  | recvErr
deriving DecidableEq

/-- Environment for one stream strategy invocation: the outcomes of the
socket, connect and send calls and the sequence of receive events. -/
structure StreamEnv where
  socket_ok : Bool
  connect_ok : Bool
  send_ok : Bool
  events : List RecvEvent
deriving DecidableEq

/-- Result of powerdns_get_data_stream: the returned status and, when the
function stored through its output parameters, the buffer (none models the
NULL pointer left after a zero-length reply) and the byte length.  The outer
none means the output parameters were left untouched (failure). -/
structure StreamResult where
  status : Int
  ret : Option (Option (List Nat) × Nat)
deriving DecidableEq

/-- The while (42) receive loop of powerdns_get_data_stream (lines 427-452).
State is the accumulated buffer: none models the NULL pointer before the
first chunk.  A chunk is appended to the buffer (the code reallocs, copies
at offset buffer_size and rewrites the NUL terminator; the terminator is
modelled once at function exit); a failed realloc or a recv error breaks
with status -1; an empty event list is recv returning 0, breaking with the
buffer as accumulated. -/
def stream_loop : Option (List Nat) → List RecvEvent → Int × Option (List Nat)
  | buf, [] => (0, buf)
  | buf, RecvEvent.recvErr :: _ => (-1, buf)
  | buf, RecvEvent.chunk data rok :: rest =>
    if rok then stream_loop (some (buf.getD [] ++ data)) rest
    else (-1, buf)

/-- powerdns_get_data_stream (lines 390-468): create a stream socket,
connect, send the command with its terminating NUL, accumulate chunks until
end-of-stream, free the partial buffer on a receive error, and on success
hand out the NUL-terminated accumulated buffer together with its data byte
length (the allocation holds one extra byte for the terminator). -/
def powerdns_get_data_stream (env : StreamEnv) : StreamResult :=
  if env.socket_ok then
    if env.connect_ok then
      if env.send_ok then
        match stream_loop none env.events with
        | (status, buf) =>
          if status < 0 then ⟨status, none⟩
          else
            ⟨0, some (buf.map (fun content => content ++ [0]),
                      match buf with
                      | none => 0
                      | some content => content.length)⟩
      else ⟨-1, none⟩
    else ⟨-1, none⟩
  else ⟨-1, none⟩

/-- Outcome of the stale-file unlink on powerdns.c line 316: success, failure
with errno == ENOENT (treated as success), or failure with any other errno
(aborts the invocation). -/
inductive UnlinkOutcome where
  | ok
  | enoent
  | failOther
deriving DecidableEq

/-- Environment for one datagram strategy invocation: outcomes of the
system calls in program order.  recv_result none is a receive error, some
bytes is a successful receive of those bytes (at most 4096 fit the temp
buffer). -/
structure DgramEnv where
  socket_ok : Bool
  unlink1 : UnlinkOutcome
  bind_ok : Bool
  chmod_ok : Bool
  connect_ok : Bool
  send_ok : Bool
  recv_result : Option (List Nat)
  malloc_ok : Bool
deriving DecidableEq

/-- System calls whose attempts the datagram model records, in the order
the code performs them. -/
inductive SysCall where
  | socket
  | unlink
  | bind
  | chmod
  | connect
  | send
  | recv
  | close
  | malloc
deriving DecidableEq

/-- Result of powerdns_get_data_dgram: status, the trace of attempted system
calls, the stored buffer bytes (including the NUL terminator) with the
reported buffer size when the outputs were written, and the local socket
path placed into sa_unix.sun_path. -/
structure DgramResult where
  status : Int
  trace : List SysCall
  ret : Option (List Nat × Nat)
  sun_path : String
deriving DecidableEq

/-- PDNS_LOCAL_SOCKPATH (line 189): LOCALSTATEDIR "/run/" PACKAGE_NAME
"-powerdns" with the standard build-time values /var and collectd. -/
def PDNS_LOCAL_SOCKPATH : String := "/var/run/collectd-powerdns"

/-- The local bind path the datagram strategy copies into sun_path (lines
309-314): the configured local_sockpath when set, otherwise the fixed
default, truncated by strncpy plus the forced terminator to the 107
characters that fit sun_path. -/
def dgram_bind_path (local_sockpath : Option String) : String :=
  (local_sockpath.getD PDNS_LOCAL_SOCKPATH).take 107

/-- The do while (0) block of powerdns_get_data_dgram (lines 324-365):
bind, chmod, connect, send and recv in order, breaking with a nonzero
status at the first failure.  After a successful recv the code executes
status = 0 (line 364), discarding the received byte count; the block
result carries the trace of calls attempted, the final status and the
received bytes. -/
def dgram_loop (env : DgramEnv) : List SysCall × Int × List Nat :=
  if env.bind_ok then
    if env.chmod_ok then
      if env.connect_ok then
        if env.send_ok then
          match env.recv_result with
          | none =>
            ([SysCall.bind, SysCall.chmod, SysCall.connect, SysCall.send, SysCall.recv],
             -1, [])
          | some bytes =>
            ([SysCall.bind, SysCall.chmod, SysCall.connect, SysCall.send, SysCall.recv],
             0, bytes)
        else ([SysCall.bind, SysCall.chmod, SysCall.connect, SysCall.send], -1, [])
      else ([SysCall.bind, SysCall.chmod, SysCall.connect], -1, [])
    else ([SysCall.bind, SysCall.chmod], -1, [])
  else ([SysCall.bind], -1, [])

/-- powerdns_get_data_dgram (lines 289-388): create a datagram socket, set
up sun_path, unlink any stale file there (failure with errno other than
ENOENT aborts), run the bind-to-recv block, close the socket, unlink the
path again, and on a zero status allocate status + 1 bytes, copy status
bytes of the received data and write the NUL terminator.  Because line 364
zeroed status, the allocation is one byte and zero data bytes are copied. -/
def powerdns_get_data_dgram (local_sockpath : Option String) (env : DgramEnv) :
    DgramResult :=
  let sun_path := dgram_bind_path local_sockpath
  if env.socket_ok then
    match env.unlink1 with
    | UnlinkOutcome.failOther =>
      ⟨-1, [SysCall.socket, SysCall.unlink, SysCall.close], none, sun_path⟩
    | _ =>
      match dgram_loop env with
      | (ltrace, lstatus, bytes) =>
        let trace := SysCall.socket :: SysCall.unlink :: ltrace ++ [SysCall.close, SysCall.unlink]
        if lstatus = 0 then
          if env.malloc_ok then
            ⟨0, trace ++ [SysCall.malloc], some (bytes.take 0 ++ [0], 0 + 1), sun_path⟩
          else ⟨-1, trace ++ [SysCall.malloc], none, sun_path⟩
        else ⟨-1, trace, none, sun_path⟩
  else ⟨-1, [SysCall.socket], none, sun_path⟩

/-- Number of unlink attempts in a system call trace. -/
def countUnlink (tr : List SysCall) : Nat :=
  tr.count SysCall.unlink

/-- A value carried by a configuration option. -/
inductive oconfig_value where
  | str (s : String)
  | num (n : Int)
  | flag (b : Bool)
deriving DecidableEq

/-- A configuration option as handed to powerdns_config: a key and its
values.  Server and Recursor blocks also carry children handled by
powerdns_config_add_server, which never touches local_sockpath, so the
children are not modelled here. -/
structure oconfig_item where
  key : String
  values : List oconfig_value
deriving DecidableEq

/-- strcasecmp equality. -/
def ciEq (a b : String) : Bool :=
  a.data.map Char.toLower == b.data.map Char.toLower

/-- One iteration of the option loop in powerdns_config (lines 723-742),
restricted to its effect on local_sockpath.  A Server or Recursor key goes
to powerdns_config_add_server (and, because the LocalSocket test is a plain
if, also reaches the trailing else and logs an error); neither path touches
local_sockpath.  A LocalSocket key executes temp = strdup (option->key) and
stores temp into local_sockpath (lines 730-737), so the stored string is the
option's key, not its string value. -/
def powerdns_config_step (local_sockpath : Option String) (option : oconfig_item) :
    Option String :=
  if ciEq option.key "LocalSocket" then some option.key
  else local_sockpath

/-- powerdns_config (lines 706-745) as its effect on local_sockpath: fold
the option loop over the children of the configuration block. -/
def powerdns_config_model (options : List oconfig_item)
    (local_sockpath : Option String) : Option String :=
  options.foldl powerdns_config_step local_sockpath

/-- powerdns_read_server returns -1 when powerdns_get_data fails and 0
otherwise (lines 496-498 and 522). -/
def powerdns_read_server_status (e : StreamEnv) : Int :=
  if (powerdns_get_data_stream e).status = 0 then 0 else -1

/-- powerdns_read_recursor returns -1 when powerdns_get_data fails and 0
otherwise (lines 539-541 and 572); the strdup of the command is assumed to
succeed. -/
def powerdns_read_recursor_status (local_sockpath : Option String) (e : DgramEnv) : Int :=
  if (powerdns_get_data_dgram local_sockpath e).status = 0 then 0 else -1

/-- The environment a registered target's collection function runs against:
a Server target owns a stream environment, a Recursor target owns the
process-wide local socket path and a datagram environment. -/
inductive ItemFuncEnv where
  | server (e : StreamEnv)
  | recursor (local_sockpath : Option String) (e : DgramEnv)
deriving DecidableEq

/-- One list_item_t in the registry: the instance label and the environment
its collection function will see this cycle. -/
structure list_item_model where
  instanceLabel : String
  fenv : ItemFuncEnv
deriving DecidableEq

/-- item->func (item): dispatch to the read function the configuration
installed for the target kind and return its status. -/
def item_func : ItemFuncEnv → Int
  | ItemFuncEnv.server e => powerdns_read_server_status e
  | ItemFuncEnv.recursor lsp e => powerdns_read_recursor_status lsp e

/-- The iteration of powerdns_read (lines 747-758): walk the registry list
from the head, invoke each item's function and record the instance label
with the returned status; the status is not consulted. -/
def powerdns_read_model : List list_item_model → List (String × Int)
  | [] => []
  | it :: rest => (it.instanceLabel, item_func it.fenv) :: powerdns_read_model rest

/-- powerdns_read: run the sweep and return 0. -/
def powerdns_read_run (items : List list_item_model) : Int × List (String × Int) :=
  (0, powerdns_read_model items)

/-- A concrete external environment used to evaluate submit on closed
inputs: latency resolves to a gauge schema with one source, every other
type to a counter schema with one source; the conversions consume zero
characters exactly on the string N/A. -/
def demoEnv : Env :=
  { oob_type := some "garbage",
    plugin_get_ds := fun ty =>
      if ty = "latency" then some ⟨1, DSType.gauge⟩ else some ⟨1, DSType.counter⟩,
    strtod_consumed := fun s => if s = "N/A" then 0 else 1,
    strtoll_consumed := fun s => if s = "N/A" then 0 else 1 }

/-- The same external environment with NULL-looking memory past the table,
to evaluate the other branch of the out-of-bounds read. -/
def demoEnvNullOob : Env :=
  { demoEnv with oob_type := none }

/-- A fully successful datagram environment in which recv returns the five
bytes of hello. -/
def dgramEnvHello : DgramEnv :=
  ⟨true, UnlinkOutcome.ok, true, true, true, true, some [104, 101, 108, 108, 111], true⟩

/-- The three chunks of the spec's stream example: sizes 10, 4090 and 1. -/
def streamChunksEx : List (List Nat) :=
  [List.replicate 10 65, List.replicate 4090 66, [67]]

/-- A stream environment in which the peer sends exactly the three example
chunks and then closes. -/
def streamEnvEx : StreamEnv :=
  ⟨true, true, true, streamChunksEx.map (fun c => RecvEvent.chunk c true)⟩

/-- A registry item whose datagram collection fails at bind this cycle. -/
def demoFailItem : list_item_model :=
  ⟨"r1", ItemFuncEnv.recursor none
    ⟨true, UnlinkOutcome.ok, false, true, true, true, none, true⟩⟩

/-- A registry item whose stream collection succeeds with an empty reply. -/
def demoOkItem : list_item_model :=
  ⟨"s2", ItemFuncEnv.server ⟨true, true, true, []⟩⟩

/-! Theorems. -/

/-- A scan that matches no element leaves the index at the list length,
mirroring how the for loop of submit exits. -/
theorem findIdx_eq_length_of_forall_false {α : Type} (p : α → Bool) :
    ∀ l : List α, (∀ x ∈ l, p x = false) → l.findIdx p = l.length := by
  intro l
  induction l with
  | nil => intro _; rfl
  | cons a t ih =>
    intro h
    have ha := h a (by simp)
    simp [List.findIdx_cons, ha, ih (fun x hx => h x (by simp [hx]))]

/-- Claim C1, code evaluated at the failing input: a fully successful
datagram invocation in which recv returns five bytes nevertheless hands out
a one-byte buffer holding only the NUL terminator, because line 364
overwrites the received byte count with 0 before lines 373-382 use it.  The
claim says the buffer should hold exactly the received bytes with its length
reflecting their count. -/
theorem c1_dgram_empty_buffer :
    (powerdns_get_data_dgram none dgramEnvHello).status = 0 ∧
    (powerdns_get_data_dgram none dgramEnvHello).ret = some ([0], 1) ∧
    dgramEnvHello.recv_result = some [104, 101, 108, 108, 111] ∧
    ([104, 101, 108, 108, 111] : List Nat).length = 5 ∧ (1 : Nat) ≠ 5 + 1 := by
  decide

/-- Claim C2, code evaluated at the failing input: processing a top-level
LocalSocket option whose string value is /tmp/pdns-local leaves
local_sockpath equal to the literal key string LocalSocket, which is then
the bind path the datagram strategy uses, instead of the configured value.
Line 732 duplicates option->key rather than option->values[0].value.string. -/
theorem c2_localsocket_bug :
    powerdns_config_model [⟨"LocalSocket", [oconfig_value.str "/tmp/pdns-local"]⟩] none
      = some "LocalSocket" ∧
    (powerdns_get_data_dgram
        (powerdns_config_model [⟨"LocalSocket", [oconfig_value.str "/tmp/pdns-local"]⟩] none)
        dgramEnvHello).sun_path = "LocalSocket" ∧
    ("LocalSocket" : String) ≠ "/tmp/pdns-local" := by
  decide

/-- Claim C3: when no table row's name matches, submit performs no
collaborator call at all, whatever value the indeterminate memory past the
table holds: neither plugin_get_ds nor plugin_dispatch_values is invoked and
the pair is dropped. -/
theorem c3_unresolved_no_calls :
    ∀ (env : Env) (inst name value : String),
      (∀ e ∈ lookup_table, e.name ≠ name) →
      (submit env inst name value).calls = [] ∧
      (submit env inst name value).dispatched = false := by
  intro env inst name value h
  have hidx : scan_index name = lookup_table.length := by
    unfold scan_index
    apply findIdx_eq_length_of_forall_false
    intro e he
    simp [h e he]
  have hget : lookup_table[scan_index name]? = none := by
    rw [hidx]
    simp
  unfold submit type_at
  rw [hget]
  cases henv : env.oob_type with
  | none => simp
  | some ty => simp [lookup_table_length, hidx]

/-- Claim C3 witness: the unmatched name unknown-stat-xyz produces no
collaborator calls. -/
theorem c3_unresolved_no_calls_w :
    (submit demoEnv "server1" "unknown-stat-xyz" "7").calls = [] ∧
    (submit demoEnv "server1" "unknown-stat-xyz" "7").dispatched = false :=
  c3_unresolved_no_calls demoEnv "server1" "unknown-stat-xyz" "7" (by decide)

/-- Claim C4, code evaluated at the failing input: for the unmatched name
unknown-stat-xyz the scan leaves i equal to lookup_table_length and the test
of lookup_table[i].type on line 221 is performed at exactly that
one-past-the-end index, before the bounds check of line 224; which early
return is taken then depends on the indeterminate memory past the table.
The claim says the index of that access is always strictly below
lookup_table_length. -/
theorem c4_oob_access :
    scan_index "unknown-stat-xyz" = lookup_table_length ∧
    (submit demoEnv "x" "unknown-stat-xyz" "0").accessIdx = lookup_table_length ∧
    ¬ (submit demoEnv "x" "unknown-stat-xyz" "0").accessIdx < lookup_table_length ∧
    (submit demoEnvNullOob "x" "unknown-stat-xyz" "0").outcome
      = SubmitOutcome.droppedNullType ∧
    (submit demoEnv "x" "unknown-stat-xyz" "0").outcome
      = SubmitOutcome.droppedNotInTable := by
  decide

/-- Claim C5 counterexample: a fully successful datagram invocation attempts
to unlink the local bind path twice, not exactly once: the stale-file
removal of line 316 and the cleanup of line 368. -/
theorem c5_counterexample :
    countUnlink (powerdns_get_data_dgram none dgramEnvHello).trace = 2 ∧ (2 : Nat) ≠ 1 := by
  decide

/-- Claim C5 as amended: every invocation that passes socket creation and
the initial stale-file removal attempts to unlink the local bind path
exactly twice, once before bind and once as unconditional cleanup,
regardless of whether any later step succeeds or fails. -/
theorem c5_unlink_twice :
    ∀ (lsp : Option String) (env : DgramEnv),
      env.socket_ok = true → env.unlink1 ≠ UnlinkOutcome.failOther →
      countUnlink (powerdns_get_data_dgram lsp env).trace = 2 := by
  rintro lsp ⟨sok, u1, bo, ho, co, se, rv, mo⟩ hs hu
  cases sok
  · exact Bool.noConfusion hs
  · cases u1
    · cases bo <;> cases ho <;> cases co <;> cases se <;> cases mo <;>
        rcases rv with _ | bytes <;> rfl
    · cases bo <;> cases ho <;> cases co <;> cases se <;> cases mo <;>
        rcases rv with _ | bytes <;> rfl
    · exact absurd rfl hu

/-- Claim C5 witness: an invocation that fails at bind still unlinks the
path exactly twice. -/
theorem c5_unlink_twice_w :
    countUnlink (powerdns_get_data_dgram (some "/tmp/x")
      ⟨true, UnlinkOutcome.enoent, false, true, true, true, none, true⟩).trace = 2 :=
  c5_unlink_twice (some "/tmp/x")
    ⟨true, UnlinkOutcome.enoent, false, true, true, true, none, true⟩ rfl (by decide)
/-- The receive loop on an all-good chunk sequence appends the chunks to the
accumulated buffer in order and exits with status 0. -/
theorem stream_loop_ok_chunks (chunks : List (List Nat)) :
    ∀ acc : List Nat,
      stream_loop (some acc) (chunks.map (fun c => RecvEvent.chunk c true)) =
        (0, some (acc ++ chunks.flatten)) := by
  induction chunks with
  | nil => intro acc; simp [stream_loop]
  | cons c rest ih =>
    intro acc
    simp [stream_loop, ih (acc ++ c)]

/-- A stream invocation whose socket, connect and send succeed and whose
receive events are exactly a nonempty chunk sequence followed by a clean
close returns status 0 with the NUL-terminated concatenation of the chunks
and their total byte length. -/
theorem stream_ok_general (env : StreamEnv) (chunks : List (List Nat))
    (h1 : env.socket_ok = true) (h2 : env.connect_ok = true)
    (h3 : env.send_ok = true)
    (hev : env.events = chunks.map (fun c => RecvEvent.chunk c true))
    (hne : chunks ≠ []) :
    powerdns_get_data_stream env =
      ⟨0, some (some (chunks.flatten ++ [0]), chunks.flatten.length)⟩ := by
  cases chunks with
  | nil => exact absurd rfl hne
  | cons c rest =>
    simp only [powerdns_get_data_stream, h1, h2, h3, hev, if_true,
      List.map_cons, stream_loop, if_pos rfl]
    rw [stream_loop_ok_chunks rest (none.getD [] ++ c)]
    norm_num [Option.getD]

/-- Claim C6: a successful stream invocation returns status 0 and an owned
NUL-terminated buffer that is the concatenation of all received chunks in
arrival order, with the total data byte length; a zero-length reply (no
chunks before the close) is a success, with a representation (status 0,
outputs written) distinct from every failure (negative status, outputs
untouched); in particular chunks of sizes 10, 4090 and 1 yield one buffer
of 4101 data bytes in original order. -/
theorem c6_stream_concat :
    (∀ (env : StreamEnv) (chunks : List (List Nat)),
        env.socket_ok = true → env.connect_ok = true → env.send_ok = true →
        env.events = chunks.map (fun c => RecvEvent.chunk c true) →
        chunks ≠ [] → (∀ c ∈ chunks, c ≠ [] ∧ c.length ≤ 4096) →
        powerdns_get_data_stream env =
          ⟨0, some (some (chunks.flatten ++ [0]), chunks.flatten.length)⟩) ∧
    (∀ env : StreamEnv, env.socket_ok = true → env.connect_ok = true →
        env.send_ok = true → env.events = [] →
        powerdns_get_data_stream env = ⟨0, some (none, 0)⟩) ∧
    (∀ env : StreamEnv, (powerdns_get_data_stream env).ret = none →
        (powerdns_get_data_stream env).status < 0) ∧
    powerdns_get_data_stream streamEnvEx =
      ⟨0, some (some (streamChunksEx.flatten ++ [0]), 4101)⟩ := by
  refine ⟨?_, ?_, ?_, ?_⟩
  · intro env chunks h1 h2 h3 hev hne _
    exact stream_ok_general env chunks h1 h2 h3 hev hne
  · intro env h1 h2 h3 hev
    simp [powerdns_get_data_stream, h1, h2, h3, hev, stream_loop]
  · intro env h
    rcases env with ⟨sok, cok, seok, evs⟩
    rcases hsl : stream_loop none evs with ⟨st, buf⟩
    cases sok <;> cases cok <;> cases seok <;>
      simp only [powerdns_get_data_stream, hsl, Bool.false_eq_true,
        if_false, if_true] at h ⊢ <;>
      try norm_num
    by_cases hlt : st < 0
    · simp only [if_pos hlt]
      exact hlt
    · simp only [if_neg hlt] at h
      exact absurd h (by simp)
  · have h := stream_ok_general streamEnvEx streamChunksEx rfl rfl rfl rfl
      (List.cons_ne_nil _ _)
    rw [h]
    have hlen : streamChunksEx.flatten.length = 4101 := by
      simp only [streamChunksEx, List.flatten_cons, List.flatten_nil, List.append_nil,
        List.length_append, List.length_replicate, List.length_cons, List.length_nil]
    rw [hlen]

/-- Claim C6 witness: two one-byte chunks yield the two bytes in order,
NUL-terminated, with length 2. -/
theorem c6_stream_concat_w :
    powerdns_get_data_stream
        ⟨true, true, true, [RecvEvent.chunk [72] true, RecvEvent.chunk [105] true]⟩ =
      ⟨0, some (some [72, 105, 0], 2)⟩ := by
  have h := c6_stream_concat.1
    ⟨true, true, true, [RecvEvent.chunk [72] true, RecvEvent.chunk [105] true]⟩
    [[72], [105]] rfl rfl rfl rfl (by decide) (by decide)
  simpa using h

/-- Claim C7: a token containing no equals sign terminates the comma-pair
decode of everything after it (whatever precedes or follows it in the token
sequence), it is not an error (the read function still returns 0), and in
particular the buffer a=1,garbage,b=2 decodes to exactly the single pair
(a, 1), with b=2 never decoded. -/
theorem c7_comma_early_stop :
    (∀ (ts1 : List (List Char)) (t : List Char) (ts2 : List (List Char)),
        t.contains '=' = false →
        server_decode (ts1 ++ t :: ts2) = server_decode ts1) ∧
    powerdns_read_server_model ("a=1,garbage,b=2".data) = (0, [("a".data, "1".data)]) := by
  constructor
  · intro ts1 t ts2 h
    induction ts1 with
    | nil =>
      simp only [List.nil_append, server_decode, splitEq, h, Bool.false_eq_true,
        if_false]
    | cons u us ih =>
      simp only [List.cons_append, server_decode]
      cases hu : splitEq u with
      | none => rfl
      | some kv =>
        obtain ⟨k, v⟩ := kv
        by_cases hv : v = [] <;> simp [hv, ih]
  · decide

/-- Claim C7 witness: a token without an equals sign placed after one good
token and before another stops decoding after the first token. -/
theorem c7_comma_early_stop_w :
    server_decode ([['a', '=', '1']] ++ ['g'] :: [['b', '=', '2']]) =
      server_decode [['a', '=', '1']] :=
  c7_comma_early_stop.1 [['a', '=', '1']] ['g'] [['b', '=', '2']] (by decide)

/-- Claim C8: the positional decoder pairs the Nth whitespace-delimited
reply value with the Nth command token after the leading verb (the pairing
loop computes exactly the zip of the verb-stripped key tokens with the value
tokens, so it stops at the shorter sequence), the read function returns 0
(no error), and the command get foo bar baz with reply 1 2 3 yields the
pairs (foo, 1), (bar, 2), (baz, 3); with the short reply 1 2 it yields just
the first two pairs. -/
theorem c8_positional_decoder :
    (∀ vs ks : List (List Char), recursor_loop vs ks = ks.zip vs) ∧
    (∀ command buffer : List Char,
        (powerdns_read_recursor_model command buffer).1 = 0 ∧
        (powerdns_read_recursor_model command buffer).2 =
          ((tokenize [' ', '\t'] command).drop 1).zip
            (tokenize [' ', '\t', '\n', '\r'] buffer)) ∧
    (powerdns_read_recursor_model ("get foo bar baz".data) ("1 2 3".data)).2 =
      [("foo".data, "1".data), ("bar".data, "2".data), ("baz".data, "3".data)] ∧
    (powerdns_read_recursor_model ("get foo bar baz".data) ("1 2".data)).2 =
      [("foo".data, "1".data), ("bar".data, "2".data)] := by
  have hloop : ∀ vs ks : List (List Char), recursor_loop vs ks = ks.zip vs := by
    intro vs
    induction vs with
    | nil => intro ks; cases ks <;> rfl
    | cons v vs ih =>
      intro ks
      cases ks with
      | nil => rfl
      | cons k ks => simp [recursor_loop, ih]
  refine ⟨hloop, ?_, by decide, by decide⟩
  intro command buffer
  exact ⟨rfl, by simp [powerdns_read_recursor_model, hloop]⟩

/-- Claim C9: for a resolved name whose schema is found with exactly one
data source, a value on which the required numeric conversion consumes zero
characters makes submit report the parse error and drop that single pair:
the schema lookup happened but plugin_dispatch_values is not called; and the
decode cycle as a whole processes every decoded pair independently (the
cycle's submit trace is exactly the map of submit over the decoded pairs),
so the remaining pairs of the same cycle are still decoded and submitted. -/
theorem c9_parse_error_drop :
    (∀ (env : Env) (inst name value : String) (e : statname_lookup_t) (ty : String)
        (ds : data_set_t),
        lookup_table[scan_index name]? = some e →
        e.type = some ty →
        env.plugin_get_ds ty = some ds →
        ds.ds_num = 1 →
        (match ds.ds0_type with
         | DSType.gauge => env.strtod_consumed value
         | DSType.counter => env.strtoll_consumed value) = 0 →
        (submit env inst name value).outcome = SubmitOutcome.droppedParseError ∧
        (submit env inst name value).dispatched = false ∧
        (submit env inst name value).calls = [Call.getDS ty]) ∧
    (∀ (env : Env) (inst : String) (toks : List (List Char)),
        server_cycle env inst toks =
          (server_decode toks).map
            (fun kv => submit env inst (String.mk kv.1) (String.mk kv.2))) := by
  constructor
  · intro env inst name value e ty ds he hty hds hnum hzero
    have hlt : scan_index name < lookup_table.length := by
      rcases List.getElem?_eq_some.mp he with ⟨hl, _⟩
      exact hl
    have ht : type_at env (scan_index name) = some ty := by
      simp [type_at, he, hty]
    unfold submit
    rw [ht]
    simp [lookup_table_length, Nat.not_le.mpr hlt, hds, hnum, hzero]
  · intro env inst toks
    induction toks with
    | nil => rfl
    | cons tok rest ih =>
      simp only [server_cycle, server_decode]
      cases hs : splitEq tok with
      | none => rfl
      | some kv =>
        obtain ⟨k, v⟩ := kv
        by_cases hv : v = [] <;> simp [hv, ih]

/-- Claim C9 witness: the resolved gauge-typed pair (latency, N/A) is
dropped with a parse error after the schema lookup, with no dispatch. -/
theorem c9_parse_error_drop_w :
    (submit demoEnv "server1" "latency" "N/A").outcome = SubmitOutcome.droppedParseError ∧
    (submit demoEnv "server1" "latency" "N/A").dispatched = false ∧
    (submit demoEnv "server1" "latency" "N/A").calls = [Call.getDS "latency"] :=
  c9_parse_error_drop.1 demoEnv "server1" "latency" "N/A"
    ⟨"latency", some "latency", none⟩ "latency" ⟨1, DSType.gauge⟩
    (by decide) rfl (by decide) rfl (by decide)

/-- Claim C10: powerdns_read walks the registry in insertion order and polls
every target: its trace is exactly the map of each item's collection
function over the list and the sweep returns 0; moreover a target whose
collection function fails does not prevent any later target from being
polled, since the trace of pre ++ failing :: post still contains the whole
trace of post after the failing entry. -/
theorem c10_read_all_targets :
    (∀ items : List list_item_model,
        (powerdns_read_run items).1 = 0 ∧
        (powerdns_read_run items).2 =
          items.map (fun it => (it.instanceLabel, item_func it.fenv))) ∧
    (∀ (pre : List list_item_model) (it : list_item_model)
        (post : List list_item_model),
        item_func it.fenv ≠ 0 →
        (powerdns_read_run (pre ++ it :: post)).2 =
          (powerdns_read_run pre).2 ++
            (it.instanceLabel, item_func it.fenv) :: (powerdns_read_run post).2) := by
  have hmap : ∀ items : List list_item_model,
      powerdns_read_model items =
        items.map (fun it => (it.instanceLabel, item_func it.fenv)) := by
    intro items
    induction items with
    | nil => rfl
    | cons a t ih => simp [powerdns_read_model, ih]
  constructor
  · intro items
    exact ⟨rfl, hmap items⟩
  · intro pre it post _
    simp [powerdns_read_run, hmap]

/-- Claim C10 witness: a registry whose first target fails at bind still
polls the second target in order. -/
theorem c10_read_all_targets_w :
    (powerdns_read_run ([] ++ demoFailItem :: [demoOkItem])).2 =
      (powerdns_read_run []).2 ++
        (demoFailItem.instanceLabel, item_func demoFailItem.fenv) ::
          (powerdns_read_run [demoOkItem]).2 :=
  c10_read_all_targets.2 [] demoFailItem [demoOkItem] (by decide)
